import Mathlib

/-!
Verification of the PdfDiffGo page-alignment and diff pipeline.

The definitions below are a shallow embedding of the Go source
(`cmd/main.go`, functions `brightness`, `worker`, `main`).  Machine
integers are modelled as `Int`/`Nat`; fallible renderer/codec calls are
modelled by boolean oracles or `Option`; the mutable RGBA images are
modelled by explicit state passing over a pixel function.
-/

namespace PdfDiff

/-- An RGBA pixel with 8-bit channels, as stored by Go's `image.RGBA`. -/
structure Pixel where
  r : Nat
  g : Nat
  b : Nat
  a : Nat
deriving DecidableEq, Repr

/-- `color.RGBA{255, 0, 0, 255}` — the "image 1 brighter" marker. -/
def redPixel : Pixel := ⟨255, 0, 0, 255⟩

/-- `color.RGBA{0, 0, 255, 255}` — the "image 2 brighter or equal" marker. -/
def bluePixel : Pixel := ⟨0, 0, 255, 255⟩

/-- The zero value of `color.RGBA`, the content of a freshly allocated
`image.NewRGBA` canvas and of out-of-bounds reads. -/
def zeroPixel : Pixel := ⟨0, 0, 0, 0⟩

/-- Go's `color.RGBA.RGBA()` widens an 8-bit channel `v` to 16 bits as
`v | v<<8`, i.e. `v * 257`. -/
def rgbaExpand (v : Nat) : Nat := v * 257

/-- `brightness` from the source: takes the 16-bit channel values returned
by `c.RGBA()`, shifts each right by 8 (`r>>8 = r/256`), and combines them
with the integer luma formula `(299*r + 587*g + 114*b) / 1000`. -/
def brightness (r g b : Nat) : Nat :=
  (299 * (r / 256) + 587 * (g / 256) + 114 * (b / 256)) / 1000

/-- Brightness of a stored 8-bit pixel, composing the `RGBA()` widening
with `brightness` exactly as the source does via `c.RGBA()`. -/
def pixelBrightness (c : Pixel) : Nat :=
  brightness (rgbaExpand c.r) (rgbaExpand c.g) (rgbaExpand c.b)

/-- The alignment computed in `worker`:
`pagToCompare := j; if j >= startOffset { pagToCompare = j + offset }`. -/
def pagToCompare (j offset startOffset : Int) : Int :=
  if j ≥ startOffset then j + offset else j

/-- The index baked into the diff artifact's file name in `worker`:
`diffImgPath := "differences_<j>.png"; if j >= startOffset
{ diffImgPath = "differences_<j+offset>.png" }`. -/
def diffImgIdx (j offset startOffset : Int) : Int :=
  if j ≥ startOffset then j + offset else j

/-- The diff artifact's file name (`fmt.Sprintf("differences_%d.png", ·)`)
as selected by `worker`. -/
def diffImgPath (j offset startOffset : Int) : String :=
  "differences_" ++ toString (diffImgIdx j offset startOffset) ++ ".png"

/-- A raster page image: width/height in pixels plus a total pixel lookup
(Go's `Image.At`, which yields the zero pixel outside the bounds). -/
structure Image where
  width : Nat
  height : Nat
  pix : Nat → Nat → Pixel

/-- `image.NewRGBA(image.Rect(0, 0, w, h))`: a zero-filled canvas. -/
def newRGBA (w h : Nat) : Image := ⟨w, h, fun _ _ => zeroPixel⟩

/-- `img.Set(x, y, c)` on an `image.RGBA`: in-bounds writes update the
pixel, out-of-bounds writes are dropped. -/
def setPix (img : Image) (x y : Nat) (c : Pixel) : Image :=
  if x < img.width ∧ y < img.height then
    { img with pix := fun a b => if a = x ∧ b = y then c else img.pix a b }
  else img

/-- One inner loop `for x := 0; x < w; x++ { Set(x+dx, y0, row(x)) }`. -/
def blitRow (dst : Image) (w dx y0 : Nat) (row : Nat → Pixel) : Image :=
  (List.range w).foldl (fun acc x => setPix acc (x + dx) y0 (row x)) dst

/-- The nested copy loops `for y ... for x ... Set(x+dx, y+dy, src(x, y))`
shared by the diff-image construction and the two compositor copies. -/
def blit (dst : Image) (w h dx dy : Nat) (src : Nat → Nat → Pixel) : Image :=
  (List.range h).foldl (fun acc y => blitRow acc w dx (y + dy) (fun x => src x y)) dst

/-- The per-pixel rule of the diff loop body: if the colors differ, red
when image 1 is strictly brighter and blue otherwise, else the original
`c1`. -/
def diffPixel (c1 c2 : Pixel) : Pixel :=
  if c1 ≠ c2 then
    if pixelBrightness c1 > pixelBrightness c2 then redPixel else bluePixel
  else c1

/-- The diff-image construction in `worker`:
`diffImg := image.NewRGBA(img1.Bounds())` followed by the nested loops
over `img1.Bounds()` setting each pixel from `c1 := img1.At(x, y)` and
`c2 := img2.At(x, y)`. -/
def diffImage (img1 img2 : Image) : Image :=
  blit (newRGBA img1.width img1.height) img1.width img1.height 0 0
    (fun x y => diffPixel (img1.pix x y) (img2.pix x y))

/-- The compositor in `worker` (flag `-sidebyside`): allocate the combined
canvas whose dimensions depend on `-verticalalign`, copy `img1` at the
origin, then copy `img2` at an x-offset of `img1`'s width (horizontal) or
a y-offset of `img1`'s height (vertical). -/
def combineImages (verticalAlign : Bool) (img1 img2 : Image) : Image :=
  if verticalAlign then
    blit
      (blit (newRGBA (max img1.width img2.width) (img1.height + img2.height))
        img1.width img1.height 0 0 img1.pix)
      img2.width img2.height 0 img1.height img2.pix
  else
    blit
      (blit (newRGBA (img1.width + img2.width) (max img1.height img2.height))
        img1.width img1.height 0 0 img1.pix)
      img2.width img2.height img1.width 0 img2.pix

/-- The saves performed by the verbatim-copy branch of `worker` (taken when
`j == startOffset`), assuming no rendering or save errors: for each
`i` in `[startOffset, startOffset+offset)` with `i < doc2.NumPage()`, the
page `doc2.Image(i - 1)` is saved as `differences_<i>.png`.  Each entry is
the pair (artifact slot `i`, rendered doc2 page index `i - 1`). -/
def copyBranchSaves (pages2 offset startOffset : Int) : List (Int × Int) :=
  (List.range offset.toNat).filterMap (fun (k : Nat) =>
    let i : Int := startOffset + (k : Int)
    if i < pages2 then some (i, i - 1) else none)

/-- The doc2 page indices the verbatim-copy branch asks the renderer for. -/
def copyBranchRenderIdx (pages2 offset startOffset : Int) : List Int :=
  (List.range offset.toNat).filterMap (fun (k : Nat) =>
    let i : Int := startOffset + (k : Int)
    if i < pages2 then some (i - 1) else none)

/-- The guard of the verbatim-copy branch: `if j == startOffset`. -/
def copyBranchTriggered (j startOffset : Int) : Bool := j == startOffset

/-- The environment a worker runs against: page counts, alignment
configuration, flags, and boolean oracles telling which renderer and
image-save calls succeed. -/
structure WorkerEnv where
  pages1 : Int
  pages2 : Int
  offset : Int
  startOffset : Int
  sideBySide : Bool
  render1Ok : Int → Bool
  render2Ok : Int → Bool
  saveDiffOk : Int → Bool
  saveCombinedOk : Int → Bool

/-- Whether the job for index `j` reaches `done <- true`, following the
control flow of `worker`: each failing `checkError` in the main pipeline
executes `continue` on the job loop (abandoning the job before the
signal), while failures inside the verbatim-copy branch only `continue`
its own inner loop. -/
def jobSignals (env : WorkerEnv) (j : Int) : Bool :=
  if j < env.pages1 ∧ env.render1Ok j = false then false
  else if pagToCompare j env.offset env.startOffset < env.pages2 ∧
      env.render2Ok (pagToCompare j env.offset env.startOffset) = false then false
  else if env.saveDiffOk (diffImgIdx j env.offset env.startOffset) = false then false
  else if env.sideBySide = true ∧ env.saveCombinedOk j = false then false
  else true

/-- Whether some rendering or save error is logged by the verbatim-copy
branch while processing job `j`. -/
def copyBranchErrored (env : WorkerEnv) (j : Int) : Bool :=
  decide (j = env.startOffset) &&
  (List.range env.offset.toNat).any (fun (k : Nat) =>
    let i : Int := env.startOffset + (k : Int)
    decide (i < env.pages2) && !(env.render2Ok (i - 1) && env.saveDiffOk i))

/-- The main per-job pipeline succeeds: the doc1 render (when `j` is in
range), the aligned doc2 render (when the target is in range), the diff
save, and the combined save (when side-by-side is enabled) all succeed. -/
def mainPipelineOk (env : WorkerEnv) (j : Int) : Bool :=
  (!decide (j < env.pages1) || env.render1Ok j) &&
  (!decide (pagToCompare j env.offset env.startOffset < env.pages2) ||
    env.render2Ok (pagToCompare j env.offset env.startOffset)) &&
  env.saveDiffOk (diffImgIdx j env.offset env.startOffset) &&
  (!env.sideBySide || env.saveCombinedOk j)

/-- Number of completion signals emitted over a list of jobs. -/
def workerSignalCount (env : WorkerEnv) (jobs : List Int) : Nat :=
  (jobs.filter (fun j => jobSignals env j)).length

/-- The aligned range walked by the Output Assembler:
`maxPages := max(doc1Pages+*offsetFlag, doc2Pages+*offsetFlag)`. -/
def mergeMaxPages (pages1 pages2 offset : Int) : Int :=
  max (pages1 + offset) (pages2 + offset)

/-- The progress update in the merge loop:
`if i%(maxPages/10) == 0 || i == maxPages-1`.  Go panics on modulo by
zero, modelled here as `none`. -/
def progressTick (i maxPages : Int) : Option Bool :=
  if maxPages / 10 = 0 then none
  else some (decide (i % (maxPages / 10) = 0) || decide (i = maxPages - 1))

/-- One iteration of the merge loop body for index `i`: `pdf.AddPage()`
(one more output page) followed by the image placement and the progress
update; a modulo-by-zero panic in `progressTick` kills the process, so it
absorbs the whole run into `none`. -/
def mergeStep (maxPages : Int) (acc : Option (List Int)) (i : Nat) :
    Option (List Int) :=
  acc.bind (fun pages =>
    (progressTick (i : Int) maxPages).map (fun _ => pages ++ [(i : Int)]))

/-- The merge loop of `main`: `for i := 0; i < maxPages; i++ { pdf.AddPage();
... differences_<i>.png ...; if i%(maxPages/10) == 0 || i == maxPages-1
{ ... } }`, modelled as the ordered list of aligned indices for which a
page is added — or `none` when the progress update's modulo-by-zero panic
aborts the loop, in which case `pdf.OutputFileAndClose` is never reached
and no merged document is produced. -/
def assembleMerged (pages1 pages2 offset : Int) : Option (List Int) :=
  (List.range (mergeMaxPages pages1 pages2 offset).toNat).foldl
    (mergeStep (mergeMaxPages pages1 pages2 offset)) (some [])

/-- A 1 x 1 light-gray page (channels 200), for exercising the diff rule. -/
def imgGray200 : Image := ⟨1, 1, fun _ _ => ⟨200, 200, 200, 255⟩⟩

/-- A 1 x 1 dark-gray page (channels 50), for exercising the diff rule. -/
def imgGray50 : Image := ⟨1, 1, fun _ _ => ⟨50, 50, 50, 255⟩⟩

/-- A 1 x 2 page with a distinctive constant pixel, for the compositor. -/
def cimgA : Image := ⟨1, 2, fun _ _ => ⟨1, 2, 3, 4⟩⟩

/-- A 2 x 1 page with a distinctive constant pixel, for the compositor. -/
def cimgB : Image := ⟨2, 1, fun _ _ => ⟨5, 6, 7, 8⟩⟩

/-- A concrete environment: one page in doc1, two in doc2, `offset = 1`,
`startOffset = 0`, rendering of doc2 fails exactly on the out-of-range
index `-1` requested by the verbatim-copy branch, and everything else
succeeds. -/
def copyEnv : WorkerEnv :=
  { pages1 := 1
    pages2 := 2
    offset := 1
    startOffset := 0
    sideBySide := false
    render1Ok := fun _ => true
    render2Ok := fun t => decide (0 ≤ t)
    saveDiffOk := fun _ => true
    saveCombinedOk := fun _ => true }

/-! ## Characterization of the imperative image loops -/

theorem setPix_width (img : Image) (x y : Nat) (c : Pixel) :
    (setPix img x y c).width = img.width := by
  unfold setPix; split <;> rfl

theorem setPix_height (img : Image) (x y : Nat) (c : Pixel) :
    (setPix img x y c).height = img.height := by
  unfold setPix; split <;> rfl

theorem setPix_pix (img : Image) (x y : Nat) (c : Pixel) (a b : Nat) :
    (setPix img x y c).pix a b =
      if (a = x ∧ b = y) ∧ x < img.width ∧ y < img.height then c
      else img.pix a b := by
  unfold setPix
  split_ifs with h1 h2 h3 <;> simp_all

theorem blitRow_succ (dst : Image) (n dx y0 : Nat) (row : Nat → Pixel) :
    blitRow dst (n + 1) dx y0 row =
      setPix (blitRow dst n dx y0 row) (n + dx) y0 (row n) := by
  unfold blitRow
  rw [List.range_succ, List.foldl_append, List.foldl_cons, List.foldl_nil]

theorem blit_succ (dst : Image) (w n dx dy : Nat) (src : Nat → Nat → Pixel) :
    blit dst w (n + 1) dx dy src =
      blitRow (blit dst w n dx dy src) w dx (n + dy) (fun x => src x n) := by
  unfold blit
  rw [List.range_succ, List.foldl_append, List.foldl_cons, List.foldl_nil]

theorem blitRow_width (dst : Image) (w dx y0 : Nat) (row : Nat → Pixel) :
    (blitRow dst w dx y0 row).width = dst.width := by
  induction w with
  | zero => rfl
  | succ n ih => rw [blitRow_succ, setPix_width, ih]

theorem blitRow_height (dst : Image) (w dx y0 : Nat) (row : Nat → Pixel) :
    (blitRow dst w dx y0 row).height = dst.height := by
  induction w with
  | zero => rfl
  | succ n ih => rw [blitRow_succ, setPix_height, ih]

theorem blitRow_pix (dst : Image) (w dx y0 : Nat) (row : Nat → Pixel)
    (a b : Nat) :
    (blitRow dst w dx y0 row).pix a b =
      if dx ≤ a ∧ a < dx + w ∧ b = y0 ∧ a < dst.width ∧ b < dst.height then
        row (a - dx)
      else dst.pix a b := by
  induction w with
  | zero =>
      unfold blitRow
      rw [List.range_zero, List.foldl_nil, if_neg]
      rintro ⟨h1, h2, -⟩; omega
  | succ n ih =>
      rw [blitRow_succ, setPix_pix, blitRow_width, blitRow_height, ih]
      split_ifs <;> first
        | rfl
        | omega
        | (congr 1; omega)

theorem blit_width (dst : Image) (w h dx dy : Nat) (src : Nat → Nat → Pixel) :
    (blit dst w h dx dy src).width = dst.width := by
  induction h with
  | zero => rfl
  | succ n ih => rw [blit_succ, blitRow_width, ih]

theorem blit_height (dst : Image) (w h dx dy : Nat) (src : Nat → Nat → Pixel) :
    (blit dst w h dx dy src).height = dst.height := by
  induction h with
  | zero => rfl
  | succ n ih => rw [blit_succ, blitRow_height, ih]

theorem blit_pix (dst : Image) (w h dx dy : Nat) (src : Nat → Nat → Pixel)
    (a b : Nat) :
    (blit dst w h dx dy src).pix a b =
      if dx ≤ a ∧ a < dx + w ∧ dy ≤ b ∧ b < dy + h ∧
          a < dst.width ∧ b < dst.height then
        src (a - dx) (b - dy)
      else dst.pix a b := by
  induction h with
  | zero =>
      unfold blit
      rw [List.range_zero, List.foldl_nil, if_neg]
      rintro ⟨-, -, h3, h4, -⟩; omega
  | succ n ih =>
      rw [blit_succ, blitRow_pix, blit_width, blit_height, ih]
      split_ifs <;> first
        | rfl
        | omega
        | (congr 1; omega)

theorem newRGBA_width (w h : Nat) : (newRGBA w h).width = w := rfl

theorem newRGBA_height (w h : Nat) : (newRGBA w h).height = h := rfl

theorem newRGBA_pix (w h a b : Nat) : (newRGBA w h).pix a b = zeroPixel := rfl

/-! ## Claim theorems -/

/-- C1: under the caller-enforced bounds `0 ≤ offset < pages_B` and
`0 ≤ startOffset < pages_A`, the Alignment Resolver maps a job index
`i ≥ 0` to `i` when `i < startOffset` and to `i + offset` otherwise. -/
theorem pagToCompare_alignment (i offset startOffset pages1 pages2 : Int)
    (_hi : 0 ≤ i) (_ho : 0 ≤ offset) (_hob : offset < pages2)
    (_hs : 0 ≤ startOffset) (_hsb : startOffset < pages1) :
    (i < startOffset → pagToCompare i offset startOffset = i) ∧
    (startOffset ≤ i → pagToCompare i offset startOffset = i + offset) := by
  unfold pagToCompare
  constructor <;> intro h <;> split_ifs <;> omega

theorem pagToCompare_alignment_witness :
    pagToCompare 5 2 1 = 5 + 2 :=
  (pagToCompare_alignment 5 2 1 2 3 (by decide) (by decide) (by decide)
    (by decide) (by decide)).2 (by decide)

/-- C3: on 8-bit channel values `(r, g, b)` (widened to 16 bits by
`c.RGBA()` and shifted back down inside `brightness`), the brightness used
for the red/blue decision is exactly
`floor((299*r + 587*g + 114*b) / 1000)` in integer arithmetic. -/
theorem brightness_luma_8bit (r g b : Nat)
    (hr : r < 256) (hg : g < 256) (hb : b < 256) :
    brightness (rgbaExpand r) (rgbaExpand g) (rgbaExpand b) =
      (299 * r + 587 * g + 114 * b) / 1000 := by
  unfold brightness rgbaExpand
  have h1 : r * 257 / 256 = r := by omega
  have h2 : g * 257 / 256 = g := by omega
  have h3 : b * 257 / 256 = b := by omega
  rw [h1, h2, h3]

theorem brightness_luma_8bit_witness :
    brightness (rgbaExpand 200) (rgbaExpand 50) (rgbaExpand 25) =
      (299 * 200 + 587 * 50 + 114 * 25) / 1000 :=
  brightness_luma_8bit 200 50 25 (by decide) (by decide) (by decide)

/-- C4: the DiffArtifact for job `j` is saved under the file name keyed by
the aligned target index — `differences_<j+offset>.png` when
`j ≥ startOffset` and `differences_<j>.png` otherwise — i.e. the path
index always coincides with the Alignment Resolver's output, never the
raw source index alone. -/
theorem diffArtifact_path_aligned (j offset startOffset : Int) :
    diffImgPath j offset startOffset =
      "differences_" ++ toString (pagToCompare j offset startOffset) ++ ".png" ∧
    (startOffset ≤ j → diffImgIdx j offset startOffset = j + offset) ∧
    (j < startOffset → diffImgIdx j offset startOffset = j) := by
  refine ⟨rfl, fun h => ?_, fun h => ?_⟩ <;>
    unfold diffImgIdx <;> split_ifs <;> omega

theorem diffArtifact_path_aligned_witness :
    diffImgIdx 5 2 1 = 5 + 2 :=
  (diffArtifact_path_aligned 5 2 1).2.1 (by decide)

/-- C5 (evaluation at the failing input): with `pages_B = 2`, `offset = 1`,
`startOffset = 1`, the verbatim-copy branch saves doc2 page `0` (not page
`1`) into the slot `differences_1.png`: the code renders `doc2.Image(i-1)`
although its own comment says it emits pages `startOffset` through
`startOffset+offset` of file2. -/
theorem copyBranch_saves_offByOne :
    copyBranchSaves 2 1 1 = [(1, 0)] ∧
    ((1 : Int), (1 : Int)) ∉ copyBranchSaves 2 1 1 := by
  decide

/-- C10: the verbatim-copy branch triggers on `j == startOffset` (so also
when `startOffset = 0`), in which case it requests doc2 page `-1`; its
requested render indices all lie in `[0, pages_B)` exactly when
`startOffset ≥ 1`. -/
theorem copyBranch_render_range (pages2 offset startOffset : Int)
    (hp : 1 ≤ pages2) (ho : 1 ≤ offset) :
    (startOffset = 0 →
        copyBranchTriggered 0 startOffset = true ∧
        (-1 : Int) ∈ copyBranchRenderIdx pages2 offset 0) ∧
    (1 ≤ startOffset →
        ∀ t ∈ copyBranchRenderIdx pages2 offset startOffset,
          0 ≤ t ∧ t < pages2) := by
  constructor
  · rintro rfl
    refine ⟨rfl, ?_⟩
    unfold copyBranchRenderIdx
    rw [List.mem_filterMap]
    refine ⟨0, ?_, ?_⟩
    · rw [List.mem_range]; omega
    · dsimp only
      split_ifs with hc
      · rw [Option.some_inj]; push_cast
      · exfalso; push_cast at hc; omega
  · intro hs t ht
    unfold copyBranchRenderIdx at ht
    rw [List.mem_filterMap] at ht
    obtain ⟨k, hk, hkt⟩ := ht
    rw [List.mem_range] at hk
    dsimp only at hkt
    split_ifs at hkt with hlt
    rw [Option.some_inj] at hkt
    omega

theorem copyBranch_render_range_witness :
    (-1 : Int) ∈ copyBranchRenderIdx 2 1 0 :=
  ((copyBranch_render_range 2 1 0 (by decide) (by decide)).1 rfl).2

/-- C9: the merge loop's progress expression `i % (maxPages/10)` divides by
zero (modelled as `none`) on the first iteration whenever the aligned
range `max(pages_A+offset, pages_B+offset)` is nonempty but smaller than
10; with at least 10 aligned pages it is well-defined for every `i`. -/
theorem progress_modulo_by_zero (pages1 pages2 offset : Int)
    (h1 : 1 ≤ mergeMaxPages pages1 pages2 offset) :
    (mergeMaxPages pages1 pages2 offset < 10 →
        progressTick 0 (mergeMaxPages pages1 pages2 offset) = none) ∧
    (10 ≤ mergeMaxPages pages1 pages2 offset →
        ∀ i : Int,
          (progressTick i (mergeMaxPages pages1 pages2 offset)).isSome = true) := by
  constructor
  · intro h
    unfold progressTick
    rw [if_pos (by omega)]
  · intro h i
    unfold progressTick
    rw [if_neg (by omega)]
    rfl

theorem progress_modulo_by_zero_witness :
    progressTick 0 (mergeMaxPages 3 3 0) = none :=
  (progress_modulo_by_zero 3 3 0 (by decide)).1 (by decide)

/-- C6 counterexample: in `copyEnv`, job `0` hits the verbatim-copy
branch, whose doc2 render of page `-1` fails and is logged
(`copyBranchErrored`), yet the job still reaches `done <- true`
(`jobSignals`): a rendering failure during the job does not always
suppress the completion signal, because failures inside the copy branch
only `continue` its inner loop. -/
theorem worker_signals_despite_copy_error :
    copyBranchErrored copyEnv 0 = true ∧ jobSignals copyEnv 0 = true := by
  decide

/-- C6 (amended): a job emits its completion signal exactly when its main
pipeline succeeds — the doc1 render, the aligned doc2 render, the diff
save, and (when enabled) the combined save — so the number of signals
equals the number of jobs whose main pipeline completed without error;
failures in the verbatim-copy prologue are logged but do not suppress the
signal. -/
theorem worker_signal_iff_mainPipeline (env : WorkerEnv) (jobs : List Int) :
    workerSignalCount env jobs =
      (jobs.filter (fun j => mainPipelineOk env j)).length ∧
    ∀ j : Int, jobSignals env j = mainPipelineOk env j := by
  have hpt : ∀ j : Int, jobSignals env j = mainPipelineOk env j := by
    intro j
    unfold jobSignals mainPipelineOk
    by_cases hj : j < env.pages1 <;>
      by_cases hp : pagToCompare j env.offset env.startOffset < env.pages2 <;>
        by_cases hb : env.sideBySide = true <;>
          split_ifs <;> simp_all
  refine ⟨?_, hpt⟩
  unfold workerSignalCount
  rw [List.filter_congr (fun j _ => hpt j)]

theorem mergeStep_fold_none (m : Int) (l : List Nat) :
    l.foldl (mergeStep m) none = none := by
  induction l with
  | nil => rfl
  | cons a t ih =>
      rw [List.foldl_cons]
      exact ih

theorem mergeStep_fold_ok (m : Int) (hm : ¬ m / 10 = 0) (n : Nat)
    (l0 : List Int) :
    (List.range n).foldl (mergeStep m) (some l0) =
      some (l0 ++ (List.range n).map (fun (i : Nat) => (i : Int))) := by
  induction n with
  | zero => simp
  | succ k ih =>
      rw [List.range_succ, List.foldl_append, ih, List.foldl_cons,
        List.foldl_nil]
      unfold mergeStep progressTick
      rw [if_neg hm]
      simp [List.range_succ]

/-- C7 counterexample: with `pages_A = 2`, `pages_B = 1`, `offset = 1` the
aligned range is `mergeMaxPages 2 1 1 = 3 < 10`, so the merge loop's
progress update divides by zero on its first iteration and the run aborts
(`none`): no merged document with page count 3 is ever produced, contrary
to the claim's unconditional page-count equation. -/
theorem assembleMerged_small_range_panics :
    assembleMerged 2 1 1 = none ∧ mergeMaxPages 2 1 1 = 3 := by
  decide

/-- C7 (amended): when merge is requested and the aligned range
`max(pages_A+offset, pages_B+offset)` has at least 10 pages (so the
progress computation `i%(maxPages/10)` is well-defined), the Output
Assembler walks the aligned indices `0 ≤ k < max(pages_A+offset,
pages_B+offset)` in strictly increasing order, adding exactly one output
page per index, so the merged page count equals
`max(pages_A+offset, pages_B+offset)`; with a nonempty aligned range of
fewer than 10 pages the progress update panics on the first iteration and
no merged document is produced. -/
theorem assembleMerged_pageCount (pages1 pages2 offset : Int)
    (h1 : 0 ≤ pages1) (_h2 : 0 ≤ pages2) (ho : 0 ≤ offset) :
    (10 ≤ mergeMaxPages pages1 pages2 offset →
      ∃ pages : List Int,
        assembleMerged pages1 pages2 offset = some pages ∧
        ((pages.length : Int) = mergeMaxPages pages1 pages2 offset) ∧
        List.Pairwise (fun a b => a < b) pages ∧
        (∀ k : Int, k ∈ pages ↔
          0 ≤ k ∧ k < mergeMaxPages pages1 pages2 offset)) ∧
    (1 ≤ mergeMaxPages pages1 pages2 offset →
      mergeMaxPages pages1 pages2 offset < 10 →
      assembleMerged pages1 pages2 offset = none) := by
  have hm : 0 ≤ mergeMaxPages pages1 pages2 offset :=
    le_trans (by omega) (le_max_left (pages1 + offset) (pages2 + offset))
  constructor
  · intro h10
    refine ⟨(List.range (mergeMaxPages pages1 pages2 offset).toNat).map
      (fun (i : Nat) => (i : Int)), ?_, ?_, ?_, ?_⟩
    · unfold assembleMerged
      rw [mergeStep_fold_ok _ (by omega), List.nil_append]
    · rw [List.length_map, List.length_range, Int.toNat_of_nonneg hm]
    · exact List.Pairwise.map _ (fun a b hab => by exact_mod_cast hab)
        (List.pairwise_lt_range _)
    · intro k
      simp only [List.mem_map, List.mem_range]
      constructor
      · rintro ⟨i, hi, rfl⟩
        omega
      · rintro ⟨hk0, hkm⟩
        exact ⟨k.toNat, by omega, by omega⟩
  · intro hlo hhi
    have hdiv : mergeMaxPages pages1 pages2 offset / 10 = 0 := by omega
    unfold assembleMerged
    obtain ⟨n, hn⟩ :=
      Nat.exists_eq_succ_of_ne_zero
        (show (mergeMaxPages pages1 pages2 offset).toNat ≠ 0 by omega)
    rw [hn, List.range_succ_eq_map, List.foldl_cons]
    have hstep : mergeStep (mergeMaxPages pages1 pages2 offset) (some []) 0 =
        none := by
      unfold mergeStep progressTick
      rw [if_pos hdiv]
      rfl
    rw [hstep, mergeStep_fold_none]

theorem assembleMerged_pageCount_witness :
    ∃ pages : List Int,
      assembleMerged 10 1 0 = some pages ∧
      ((pages.length : Int) = mergeMaxPages 10 1 0) ∧
      List.Pairwise (fun a b => a < b) pages ∧
      (∀ k : Int, k ∈ pages ↔ 0 ≤ k ∧ k < mergeMaxPages 10 1 0) :=
  (assembleMerged_pageCount 10 1 0 (by decide) (by decide) (by decide)).1
    (by decide)

/-- C2: inside `p1`'s bounds, the diff image keeps `p1`'s pixel where the
two source pixels are exactly channel-equal; where they differ it is
opaque red when `brightness(p1[x,y]) > brightness(p2[x,y])` and opaque
blue otherwise, including the equal-brightness tie. -/
theorem diffImage_pixel_rule (img1 img2 : Image) (x y : Nat)
    (hx : x < img1.width) (hy : y < img1.height) :
    (img1.pix x y = img2.pix x y →
        (diffImage img1 img2).pix x y = img1.pix x y) ∧
    (img1.pix x y ≠ img2.pix x y →
      (pixelBrightness (img2.pix x y) < pixelBrightness (img1.pix x y) →
          (diffImage img1 img2).pix x y = redPixel) ∧
      (pixelBrightness (img1.pix x y) ≤ pixelBrightness (img2.pix x y) →
          (diffImage img1 img2).pix x y = bluePixel)) := by
  have hpix : (diffImage img1 img2).pix x y =
      diffPixel (img1.pix x y) (img2.pix x y) := by
    unfold diffImage
    rw [blit_pix, newRGBA_width, newRGBA_height,
      if_pos ⟨Nat.zero_le x, by omega, Nat.zero_le y, by omega, hx, hy⟩,
      Nat.sub_zero, Nat.sub_zero]
  refine ⟨fun he => ?_, fun hne => ⟨fun hgt => ?_, fun hle => ?_⟩⟩ <;>
    rw [hpix] <;> unfold diffPixel
  · rw [if_neg (by simp [he])]
  · rw [if_pos hne, if_pos hgt]
  · rw [if_pos hne, if_neg (by omega)]

theorem diffImage_pixel_rule_witness :
    (diffImage imgGray200 imgGray50).pix 0 0 = redPixel :=
  ((diffImage_pixel_rule imgGray200 imgGray50 0 0 (by decide) (by decide)).2
    (by decide)).1 (by decide)

theorem twoBlit_pix (w h : Nat) (p1 p2 : Image) (dx dy : Nat) (a b : Nat) :
    (blit (blit (newRGBA w h) p1.width p1.height 0 0 p1.pix)
        p2.width p2.height dx dy p2.pix).pix a b =
      if dx ≤ a ∧ a < dx + p2.width ∧ dy ≤ b ∧ b < dy + p2.height ∧
          a < w ∧ b < h then
        p2.pix (a - dx) (b - dy)
      else if a < p1.width ∧ b < p1.height ∧ a < w ∧ b < h then p1.pix a b
      else zeroPixel := by
  rw [blit_pix, blit_width, blit_height, newRGBA_width, newRGBA_height,
    blit_pix, newRGBA_width, newRGBA_height, newRGBA_pix,
    Nat.sub_zero, Nat.sub_zero]
  split_ifs <;> first
    | rfl
    | omega

/-- C8: the compositor's output has width `p1.width + p2.width` and height
`max(p1.height, p2.height)` in horizontal mode, and width
`max(p1.width, p2.width)` and height `p1.height + p2.height` in vertical
mode; `p1` sits at the origin and `p2` at x-offset `p1.width`
(horizontal) or y-offset `p1.height` (vertical); composition succeeds for
any input sizes and every uncovered canvas coordinate holds the zero
pixel. -/
theorem combineImages_spec (v : Bool) (p1 p2 : Image) :
    ((combineImages v p1 p2).width =
        if v = true then max p1.width p2.width else p1.width + p2.width) ∧
    ((combineImages v p1 p2).height =
        if v = true then p1.height + p2.height else max p1.height p2.height) ∧
    (∀ x y, x < p1.width → y < p1.height →
        (combineImages v p1 p2).pix x y = p1.pix x y) ∧
    (∀ x y, x < p2.width → y < p2.height →
        (combineImages v p1 p2).pix
          (x + if v = true then 0 else p1.width)
          (y + if v = true then p1.height else 0) = p2.pix x y) ∧
    (∀ x y, x < (combineImages v p1 p2).width →
        y < (combineImages v p1 p2).height →
        ¬ (x < p1.width ∧ y < p1.height) →
        ¬ (if v = true then x < p2.width ∧ p1.height ≤ y
           else p1.width ≤ x ∧ y < p2.height) →
        (combineImages v p1 p2).pix x y = zeroPixel) := by
  cases v
  · simp only [if_neg Bool.false_ne_true]
    have hc : combineImages false p1 p2 =
        blit (blit (newRGBA (p1.width + p2.width) (max p1.height p2.height))
            p1.width p1.height 0 0 p1.pix)
          p2.width p2.height p1.width 0 p2.pix := by
      unfold combineImages
      rw [if_neg (by simp)]
    refine ⟨?_, ?_, ?_, ?_, ?_⟩
    · rw [hc, blit_width, blit_width, newRGBA_width]
    · rw [hc, blit_height, blit_height, newRGBA_height]
    · intro x y hx hy
      rw [hc, twoBlit_pix, if_neg (by omega), if_pos (by omega)]
    · intro x y hx hy
      rw [hc, twoBlit_pix, if_pos (by omega)]
      congr 1
      omega
    · intro x y hxw hyh hnot1 hnot2
      rw [hc] at hxw hyh ⊢
      rw [blit_width, blit_width, newRGBA_width] at hxw
      rw [blit_height, blit_height, newRGBA_height] at hyh
      rw [twoBlit_pix, if_neg (by omega), if_neg (by omega)]
  · simp only [if_pos rfl, if_true]
    have hc : combineImages true p1 p2 =
        blit (blit (newRGBA (max p1.width p2.width) (p1.height + p2.height))
            p1.width p1.height 0 0 p1.pix)
          p2.width p2.height 0 p1.height p2.pix := by
      unfold combineImages
      rw [if_pos rfl]
    refine ⟨?_, ?_, ?_, ?_, ?_⟩
    · rw [hc, blit_width, blit_width, newRGBA_width]
    · rw [hc, blit_height, blit_height, newRGBA_height]
    · intro x y hx hy
      rw [hc, twoBlit_pix, if_neg (by omega), if_pos (by omega)]
    · intro x y hx hy
      rw [hc, twoBlit_pix, if_pos (by omega)]
      congr 1
      omega
    · intro x y hxw hyh hnot1 hnot2
      rw [hc] at hxw hyh ⊢
      rw [blit_width, blit_width, newRGBA_width] at hxw
      rw [blit_height, blit_height, newRGBA_height] at hyh
      rw [twoBlit_pix, if_neg (by omega), if_neg (by omega)]

theorem combineImages_spec_witness :
    (combineImages true cimgA cimgB).pix 0 0 = cimgA.pix 0 0 ∧
    (combineImages true cimgA cimgB).pix
      (0 + if true = true then 0 else cimgA.width)
      (0 + if true = true then cimgA.height else 0) = cimgB.pix 0 0 ∧
    (combineImages true cimgA cimgB).pix 1 0 = zeroPixel :=
  ⟨(combineImages_spec true cimgA cimgB).2.2.1 0 0 (by decide) (by decide),
   (combineImages_spec true cimgA cimgB).2.2.2.1 0 0 (by decide) (by decide),
   (combineImages_spec true cimgA cimgB).2.2.2.2 1 0 (by decide) (by decide)
     (by decide) (by decide)⟩

end PdfDiff
